import Mathlib

/-!
Shallow embedding of the mharis99/german-ai-agent repository.

The embedded code is:
* `detectLanguage` and `getLanguageResponse` from `src/app/lib/langchain-gemini.ts`;
* the server `action` from `src/app/routes/_index.tsx`.

`detectLanguage` counts the matches of two JavaScript regexes
`/\b(w1|...|wn)\b/gi` (a German and an English function-word list), tests the
text against the character class written `/[Ă¤Ă¶ĂĽĂźĂ„Ă–Ăś]/` in the source
file (the file is stored double-UTF-8-encoded through CP1250, so the class
literally holds the characters Ă ¤ ¶ Ľ ź „ – ś rather than the seven umlauts
ä ö ü ß Ä Ö Ü it was evidently meant to hold), and picks a language tag.
The regex semantics modelled below are those of a JavaScript regex with the
`g` and `i` flags and without the `u` flag: `\w` is `[A-Za-z0-9_]`, `\b` is a
`\w`-boundary, case folding canonicalises through `toUpperCase` leaving alone
any non-ASCII character whose upper case is ASCII, alternation is ordered,
and global matching restarts after the end of each match.
-/

namespace GermanAiAgent

/-- The word characters `\w` of a JavaScript regex without the `u` flag:
`[A-Za-z0-9_]`. -/
def isWordChar (c : Char) : Bool :=
  ('a' ≤ c && c ≤ 'z') || ('A' ≤ c && c ≤ 'Z') || ('0' ≤ c && c ≤ '9') || c == '_'

/-- Case canonicalisation of the JavaScript `i` flag (without the `u` flag):
characters compare equal after `toUpperCase`, except that a non-ASCII character
whose upper case would be ASCII is left unchanged.  On the characters occurring
in the two word-list regexes this is ASCII upper-casing together with `ă ↦ Ă`
and `ľ ↦ Ľ` (the corrupted word-list entries contain Ă, Ľ and ¶; the first two
have the lower-case forms ă and ľ, while ¶ is caseless). -/
def canon (c : Char) : Char :=
  if c = 'ă' then 'Ă' else if c = 'ľ' then 'Ľ' else c.toUpper

/-- Equality of characters under the case canonicalisation of the `i` flag. -/
def canonEq (a b : Char) : Bool := canon a == canon b

/-- Does the alternative `w` match, case-insensitively, at the head of the
text `t`? -/
def matchesWord : List Char → List Char → Bool
  | [], _ => true
  | _ :: _, [] => false
  | p :: ps, c :: cs => canonEq p c && matchesWord ps cs

/-- Is position `n` of the text a non-word position (end of text or a
non-`\w` character)?  Every alternative of both word lists ends in an ASCII
letter, so the trailing `\b` of the regex holds exactly when this does. -/
def nonWordAt (t : List Char) (n : Nat) : Bool :=
  match t.drop n with
  | [] => true
  | c :: _ => !isWordChar c

/-- The first alternative (in the regex's left-to-right order) that matches at
the head of `t` with its trailing `\b` satisfied; returns its length.  This is
JavaScript's ordered-alternation semantics: a zero-width `\b` failure after an
alternative backtracks into the next alternative. -/
def firstAltLen (alts : List (List Char)) (t : List Char) : Option Nat :=
  match alts with
  | [] => none
  | w :: ws =>
    if matchesWord w t && nonWordAt t w.length then some w.length
    else firstAltLen ws t

/-- One global-matching scan of `text.match(/\b(alts)\b/gi)`, returning the
number of matches.  `prevWord` records whether the character before the current
position is a `\w` character: every alternative starts with an ASCII letter, so
the leading `\b` can hold only at a position preceded by a non-word character
(or the start of the text).  `skip` counts the characters of a just-matched
alternative that remain to be stepped over — JavaScript resumes the global scan
at `lastIndex`, the position right after the match; every matched character is
canon-equal to an ASCII letter of the alternative, hence a word character, so
the scan resumes with `prevWord = true`. -/
def countFrom (alts : List (List Char)) : Bool → Nat → List Char → Nat
  | _, _, [] => 0
  | prevWord, skip + 1, _ :: rest => countFrom alts prevWord skip rest
  | prevWord, 0, c :: rest =>
    if prevWord then countFrom alts (isWordChar c) 0 rest
    else
      match firstAltLen alts (c :: rest) with
      | some n => 1 + countFrom alts true (n - 1) rest
      | none => countFrom alts (isWordChar c) 0 rest

/-- `(text.match(re) || []).length` for the regex `/\b(alts)\b/gi`. -/
def countMatches (alts : List String) (text : String) : Nat :=
  countFrom (alts.map String.toList) false 0 text.toList

/-- The alternatives of the `germanWords` regex of
`src/app/lib/langchain-gemini.ts`, in source order (including the duplicated
`sie`).  Four entries are stored mojibake-encoded in the source file:
`fĂĽr`, `kĂ¶nnen`, `mĂĽssen`, `dĂĽrfen` (for the intended für, können,
müssen, dürfen). -/
def germanWords : List String :=
  ["ich", "du", "er", "sie", "es", "wir", "ihr", "sie", "der", "die", "das",
   "ein", "eine", "und", "oder", "aber", "mit", "von", "zu", "in", "auf",
   "fĂĽr", "ist", "sind", "war", "waren", "haben", "hat", "hatte", "hatten",
   "werden", "wird", "wurde", "wurden", "kĂ¶nnen", "kann", "konnte",
   "konnten", "mĂĽssen", "muss", "musste", "mussten", "sollen", "soll",
   "sollte", "sollten", "wollen", "will", "wollte", "wollten", "dĂĽrfen",
   "darf", "durfte", "durften"]

/-- The alternatives of the `englishWords` regex, in source order. -/
def englishWords : List String :=
  ["i", "you", "he", "she", "it", "we", "they", "the", "a", "an", "and", "or",
   "but", "with", "from", "to", "in", "on", "for", "is", "are", "was", "were",
   "have", "has", "had", "will", "would", "can", "could", "should", "shall",
   "must", "may", "might", "do", "does", "did", "get", "got", "go", "went",
   "come", "came", "see", "saw", "know", "knew", "think", "thought", "take",
   "took", "give", "gave", "make", "made"]

/-- The characters of the class `/[Ă¤Ă¶ĂĽĂźĂ„Ă–Ăś]/` exactly as stored in
the source file: the double encoding turned each intended umlaut into a pair
of characters, so the class holds these fourteen characters (eight distinct
ones) instead of ä ö ü ß Ä Ö Ü. -/
def germanCharClassChars : List Char :=
  ['Ă', '¤', 'Ă', '¶', 'Ă', 'Ľ', 'Ă', 'ź', 'Ă', '„', 'Ă', '–', 'Ă', 'ś']

/-- `const hasGermanChars = /[Ă¤Ă¶ĂĽĂźĂ„Ă–Ăś]/.test(text)` (no flags on
this regex, so an exact character-set membership test). -/
def hasGermanChars (text : String) : Bool :=
  text.toList.any (fun c => germanCharClassChars.contains c)

/-- `detectLanguage` of `src/app/lib/langchain-gemini.ts`. -/
def detectLanguage (text : String) : String :=
  let germanMatches := countMatches germanWords text
  let englishMatches := countMatches englishWords text
  if hasGermanChars text || decide (germanMatches > englishMatches) then "de"
  else if decide (englishMatches > 0) then "en"
  else "de"

/-- The seven German-specific accented characters the spec and the claims talk
about (and the character class of the source was evidently meant to contain). -/
def germanUmlauts : List Char := ['ä', 'ö', 'ü', 'ß', 'Ä', 'Ö', 'Ü']

/-- Spec-side predicate: does the text contain one of the seven German-specific
accented characters ä ö ü ß Ä Ö Ü? -/
def containsGermanUmlaut (text : String) : Bool :=
  text.toList.any (fun c => germanUmlauts.contains c)

/-- The record returned by `getLanguageResponse`:
`{text: string, language: string, detectedLanguage: string}`. -/
structure LanguageResponse where
  text : String
  language : String
  detectedLanguage : String
deriving DecidableEq, Repr

/-- The English fallback string of the `catch` branch of
`getLanguageResponse`. -/
def fallbackEnglish : String :=
  "Sorry, I had a small problem. Could you say that again?"

/-- The German fallback string of the `catch` branch, exactly as stored in the
source file (the double encoding turned `Können` into `KĂ¶nnen`). -/
def fallbackGerman : String :=
  "Entschuldigung, ich hatte ein kleines Problem. KĂ¶nnen Sie das noch einmal sagen?"

/-- `getLanguageResponse` of `src/app/lib/langchain-gemini.ts`.  The one
throwing step of its `try` block — `conversationChain.predict`, the external
generation call — is modelled by the `provider` argument: `.ok s` for a
successful call returning the string `s`, `.error e` for a call raising the
error `e` (of an arbitrary type `ε`, since the `catch` only logs the error).
`response.trim()` is modelled by `String.trim`.  A propagated exception would
be a final `.error`; the `catch` branch recomputes `detectLanguage`, as the
source does. -/
def getLanguageResponse {ε : Type} (userInput : String) (provider : Except ε String) :
    Except ε LanguageResponse :=
  match
    (do
      let detectedLanguage := detectLanguage userInput
      let response ← provider
      let cleanResponse := response.trim
      pure { text := cleanResponse, language := detectedLanguage,
             detectedLanguage := detectedLanguage } : Except ε LanguageResponse)
  with
  | .ok r => .ok r
  | .error _ =>
    let detectedLanguage := detectLanguage userInput
    let fallbackText :=
      if detectedLanguage = "en" then fallbackEnglish else fallbackGerman
    .ok { text := fallbackText, language := detectedLanguage,
          detectedLanguage := detectedLanguage }

/-- The body of a response of the server action: either the success JSON
`{text, language, detectedLanguage}` or the error JSON `{error}`. -/
inductive ActionBody where
  | success (text language detectedLanguage : String)
  | failure (error : String)
deriving DecidableEq, Repr

/-- A response of the server action: an HTTP status and a JSON body. -/
structure ActionResult where
  status : Nat
  body : ActionBody
deriving DecidableEq, Repr

/-- The server `action` of `src/app/routes/_index.tsx`.  `transcript` models
`formData.get("transcript")`: `none` for a missing field, `some t` for a
present string field; `!transcript` is true exactly for `null` and `""`.  The
dynamic import of the library module is modelled as succeeding.  The `try`
block around `getLanguageResponse` maps a propagated error (a final `.error`)
to the 500 response; a normal return (`.ok`) is mapped to the 200 response. -/
def action {ε : Type} (transcript : Option String) (provider : Except ε String) :
    ActionResult :=
  match transcript with
  | none => { status := 400, body := .failure "No transcript provided" }
  | some t =>
    if t = "" then { status := 400, body := .failure "No transcript provided" }
    else
      match getLanguageResponse t provider with
      | .ok aiResponse =>
        { status := 200,
          body := .success aiResponse.text aiResponse.language
            aiResponse.detectedLanguage }
      | .error _ => { status := 500, body := .failure "Processing failed" }

end GermanAiAgent

namespace GermanAiAgent

/-- Every run of `getLanguageResponse` returns normally: the internal
`try`/`catch` turns any provider error into the fallback record, so the result
is always `.ok`. -/
theorem getLanguageResponse_ok (ε : Type) (input : String)
    (provider : Except ε String) :
    ∃ r : LanguageResponse, getLanguageResponse input provider = .ok r := by
  cases provider <;> exact ⟨_, rfl⟩

/-- C1 (counterexample): on `"ich the"` the German and English word-list match
counts are equal and nonzero, the input contains no German-specific accented
character (neither the seven umlauts nor any character of the classifier's
class), yet `detectLanguage` returns `"en"`, not `"de"` as the claim states:
the tie falls through to the `englishMatches > 0` branch. -/
theorem tie_counterexample :
    countMatches germanWords "ich the" = countMatches englishWords "ich the" ∧
    countMatches germanWords "ich the" ≠ 0 ∧
    containsGermanUmlaut "ich the" = false ∧
    hasGermanChars "ich the" = false ∧
    detectLanguage "ich the" ≠ "de" := by decide

/-- C1 (amended): for every input whose German and English word-list match
counts are equal and nonzero and which contains none of the German-specific
accented characters and none of the characters the classifier's character
class actually tests, `detectLanguage` returns `"en"`. -/
theorem tie_resolves_to_english (text : String)
    (h1 : countMatches germanWords text = countMatches englishWords text)
    (h2 : countMatches germanWords text ≠ 0)
    (h3 : containsGermanUmlaut text = false)
    (h4 : hasGermanChars text = false) :
    detectLanguage text = "en" := by
  have h2' : 0 < countMatches englishWords text := by omega
  simp [detectLanguage, h4, h1, h2']

/-- Witness for the amended C1 at the input `"du is"`. -/
theorem tie_resolves_to_english_witness :
    (countMatches germanWords "du is" = countMatches englishWords "du is" ∧
     countMatches germanWords "du is" ≠ 0 ∧
     containsGermanUmlaut "du is" = false ∧
     hasGermanChars "du is" = false) ∧
    detectLanguage "du is" = "en" :=
  ⟨⟨by decide, by decide, by decide, by decide⟩,
   tie_resolves_to_english "du is" (by decide) (by decide) (by decide)
     (by decide)⟩

/-- C2: if the external generation call raises any error, `getLanguageResponse`
returns normally, and its `text` field is one of the two fixed fallback
strings — the English apology exactly when the classifier applied to the
original input yields `"en"`, otherwise the German apology. -/
theorem fallback_on_provider_failure (ε : Type) (e : ε) (input : String) :
    ∃ r : LanguageResponse, getLanguageResponse input (.error e) = .ok r ∧
      (r.text = fallbackEnglish ∨ r.text = fallbackGerman) ∧
      (r.text = fallbackEnglish ↔ detectLanguage input = "en") := by
  refine ⟨_, rfl, ?_, ?_⟩
  · by_cases h : detectLanguage input = "en" <;> simp [h]
  · by_cases h : detectLanguage input = "en" <;> simp [h]
    decide

/-- Witness for C2 at the input `"hello"` with a `Unit`-valued error. -/
theorem fallback_on_provider_failure_witness :
    ∃ r : LanguageResponse,
      getLanguageResponse "hello" (Except.error ()) = .ok r ∧
      (r.text = fallbackEnglish ∨ r.text = fallbackGerman) ∧
      (r.text = fallbackEnglish ↔ detectLanguage "hello" = "en") :=
  fallback_on_provider_failure Unit () "hello"

/-- C3: a missing or empty `transcript` yields a 400 response whose body is the
error JSON; for any non-empty transcript the action applies no further
validation — it invokes the responder and wraps its returned record in the
200 response unchanged. -/
theorem action_validates_only_transcript (ε : Type)
    (provider : Except ε String) :
    ((action none provider).status = 400 ∧
      ∃ m, (action none provider).body = .failure m) ∧
    ((action (some "") provider).status = 400 ∧
      ∃ m, (action (some "") provider).body = .failure m) ∧
    (∀ t : String, t ≠ "" → ∃ r : LanguageResponse,
      getLanguageResponse t provider = .ok r ∧
      action (some t) provider =
        { status := 200,
          body := .success r.text r.language r.detectedLanguage }) := by
  refine ⟨⟨rfl, _, rfl⟩, ⟨rfl, _, rfl⟩, fun t ht => ?_⟩
  obtain ⟨r, hr⟩ := getLanguageResponse_ok ε t provider
  exact ⟨r, hr, by simp [action, ht, hr]⟩

/-- Witness for C3 at the transcript `"hallo"` and a failing provider. -/
theorem action_validates_only_transcript_witness :
    ("hallo" ≠ "") ∧ ∃ r : LanguageResponse,
      getLanguageResponse "hallo" (Except.error ()) = .ok r ∧
      action (some "hallo") (Except.error ()) =
        { status := 200,
          body := .success r.text r.language r.detectedLanguage } :=
  ⟨by decide,
   (action_validates_only_transcript Unit (Except.error ())).2.2 "hallo"
     (by decide)⟩

/-- C4 (code bug): `"ä is"` contains the German-specific accented character ä,
so the claim requires `"de"`; but the stored character class does not contain
ä (the double encoding replaced the umlauts by other characters), so the check
fails and the English-majority branch returns `"en"`. -/
theorem umlaut_input_misclassified :
    containsGermanUmlaut "ä is" = true ∧
    hasGermanChars "ä is" = false ∧
    detectLanguage "ä is" = "en" := by decide

/-- C5 (code bug): `"Ă is"` contains none of the seven German-specific
accented characters and has strictly more English than German word-list
matches, so the claim requires `"en"`; but Ă is one of the characters the
corrupted class does contain, so the character test fires and the classifier
returns `"de"`. -/
theorem corrupted_class_overrides_english_majority :
    containsGermanUmlaut "Ă is" = false ∧
    countMatches englishWords "Ă is" > countMatches germanWords "Ă is" ∧
    detectLanguage "Ă is" = "de" := by decide

/-- C6: with zero matches in both word lists and no German-specific accented
characters, `detectLanguage` defaults to `"de"`. -/
theorem default_to_german (text : String)
    (h1 : countMatches germanWords text = 0)
    (h2 : countMatches englishWords text = 0)
    (h3 : containsGermanUmlaut text = false) :
    detectLanguage text = "de" := by
  simp [detectLanguage, h1, h2]

/-- Witness for C6 at the empty string, the spec's own example. -/
theorem default_to_german_witness :
    (countMatches germanWords "" = 0 ∧ countMatches englishWords "" = 0 ∧
     containsGermanUmlaut "" = false) ∧
    detectLanguage "" = "de" :=
  ⟨⟨by decide, by decide, by decide⟩,
   default_to_german "" (by decide) (by decide) (by decide)⟩

/-- C7: the spec's two concrete classification examples. -/
theorem spec_examples :
    detectLanguage "Ich gehe heute ins Kino" = "de" ∧
    detectLanguage "I am going to the cinema today" = "en" := by decide

/-- C8: on provider success, `getLanguageResponse` returns the provider's
string trimmed, with both language fields equal to the classifier's tag. -/
theorem success_response_shape (ε : Type) (input response : String) :
    getLanguageResponse input (Except.ok response : Except ε String) =
      Except.ok { text := response.trim, language := detectLanguage input,
                  detectedLanguage := detectLanguage input } := rfl

/-- Witness for C8 at a concrete input and provider string. -/
theorem success_response_shape_witness :
    getLanguageResponse "hallo" (Except.ok " Guten Tag! " : Except Unit String) =
      Except.ok { text := " Guten Tag! ".trim,
                  language := detectLanguage "hallo",
                  detectedLanguage := detectLanguage "hallo" } :=
  success_response_shape Unit "hallo" " Guten Tag! "

/-- C9: whatever the provider does, the returned record's `language` and
`detectedLanguage` fields agree and equal the classifier's tag for the
original input. -/
theorem language_fields_agree (ε : Type) (input : String)
    (provider : Except ε String) :
    ∃ r : LanguageResponse, getLanguageResponse input provider = .ok r ∧
      r.language = r.detectedLanguage ∧ r.language = detectLanguage input := by
  cases provider <;> exact ⟨_, rfl, rfl, rfl⟩

/-- Witness for C9 at a concrete input and a failing provider. -/
theorem language_fields_agree_witness :
    ∃ r : LanguageResponse,
      getLanguageResponse "Guten Morgen" (Except.error ()) = .ok r ∧
      r.language = r.detectedLanguage ∧
      r.language = detectLanguage "Guten Morgen" :=
  language_fields_agree Unit "Guten Morgen" (Except.error ())

/-- C10: for every non-empty transcript and every provider behavior the action
returns the 200 success shape; the 500 branch is unreachable because
`getLanguageResponse` catches every provider error internally. -/
theorem action_never_500 (ε : Type) (provider : Except ε String) (t : String)
    (h : t ≠ "") :
    (action (some t) provider).status = 200 ∧
    ∃ a b c, (action (some t) provider).body = ActionBody.success a b c := by
  obtain ⟨r, hr⟩ := getLanguageResponse_ok ε t provider
  refine ⟨?_, r.text, r.language, r.detectedLanguage, ?_⟩ <;>
    simp [action, h, hr]

/-- Witness for C10 at the transcript `"hi"` and a failing provider. -/
theorem action_never_500_witness :
    ("hi" ≠ "") ∧ ((action (some "hi") (Except.error ())).status = 200 ∧
      ∃ a b c,
        (action (some "hi") (Except.error ())).body =
          ActionBody.success a b c) :=
  ⟨by decide, action_never_500 Unit (Except.error ()) "hi" (by decide)⟩

end GermanAiAgent
